import Mathlib

/-!
Verification of the reconnecting Liquidsoap telnet client
(`liquidsoap.py`), as a shallow embedding in Lean.

The socket layer is modelled by a `World` script: a list of outcomes for
each underlying `connect`, `socket.send` and `socket.recv` call, consumed
in order.  Machine behaviour of the Python code (`Connection._connect`,
`Connection.send`, `Connection.__exit__`, `Console._send`) is translated
into state-passing functions over this script.
-/

/-- The transport selected from the address string: TCP `host:port`
    (the port string is passed to the OS after `int()` conversion, which
    no property here depends on) or a Unix domain socket path. -/
inductive Transport where
  | tcp (host port : String)
  | unix (path : String)
deriving DecidableEq

/-- An OS socket handle as the Python object holds it: the transport it
    was created for, whether the underlying `connect()` call succeeded
    (`estab`), and whether `close()` has been called on it. -/
structure Handle where
  transport : Transport
  estab : Bool
  closed : Bool
deriving DecidableEq

/-- The `Connection` object: the address string and `self.socket`
    (`none` models Python `None`, i.e. the Disconnected state). -/
structure Connection where
  socket_addr : String
  socket : Option Handle
deriving DecidableEq

/-- Python exception kinds that can escape the modelled code. -/
inductive PyError where
  /-- the underlying `connect()` call raised (ConnectionRefusedError,
      gaierror, FileNotFoundError, ...) -/
  | connectFailed
  /-- the `OSError('Connection lost')` raised by `Connection.send` -/
  | connectionLost
  /-- `socket.timeout` raised by a read/write under the 100 ms timeout -/
  | sockTimeout
  /-- any other OSError raised by the OS socket layer (EBADF, ENOTCONN,
      ECONNRESET, ...) -/
  | sockError
  /-- UnicodeDecodeError from `bytes.decode()` (a ValueError, not an
      OSError) -/
  | unicodeError
  /-- AttributeError, e.g. calling a method on `None` -/
  | attributeError
  /-- modelling artifact: the script provides no further events -/
  | scriptEnd
deriving DecidableEq

/-- Which modelled exceptions are `OSError`s (caught by `except OSError`).
    `socket.timeout` and the connect failures are OSError subclasses;
    UnicodeDecodeError (ValueError) and AttributeError are not. -/
def isOSError : PyError → Bool
  | .connectFailed => true
  | .connectionLost => true
  | .sockTimeout => true
  | .sockError => true
  | .unicodeError => false
  | .attributeError => false
  | .scriptEnd => false

/-- Errors the OS socket layer itself can raise on a read or write. -/
inductive SockErr where
  | timeout
  | oserr
deriving DecidableEq

/-- The Python exception corresponding to a raised socket error. -/
def SockErr.toPy : SockErr → PyError
  | .timeout => .sockTimeout
  | .oserr => .sockError

/-- Outcome of one `socket.send` call: the byte count it returned, or an
    exception it raised. -/
inductive SendEv where
  | sent (n : Nat)
  | raises (e : SockErr)
deriving DecidableEq

/-- Outcome of one `socket.recv` call: the bytes it returned (the empty
    chunk means the peer closed), or an exception it raised. -/
inductive RecvEv where
  | chunk (bs : List Nat)
  | raises (e : SockErr)
deriving DecidableEq

/-- The scripted behaviour of the socket layer, consumed in order:
    one Bool per underlying `connect()` call (true = success), and the
    outcome of each `socket.send` and each `socket.recv` call. -/
structure World where
  connects : List Bool
  sends : List SendEv
  recvs : List RecvEv
deriving DecidableEq

/-! ### Address splitting and byte-level string operations -/

/-- Split a list at the first occurrence of `sep`
    (Python `s.split(sep, 1)`); `none` when `sep` does not occur. -/
def splitFirst (sep : Char) : List Char → Option (List Char × List Char)
  | [] => none
  | c :: cs =>
    if c = sep then some ([], cs)
    else (splitFirst sep cs).map (fun p => (c :: p.1, p.2))

/-- `Connection._connect`, lines 27-33: a colon in the address selects
    TCP (split at the first colon into host and port), otherwise the
    address is a Unix domain socket path. -/
def selectTransport (addr : String) : Transport :=
  match splitFirst ':' addr.data with
  | some (h, p) => Transport.tcp (String.mk h) (String.mk p)
  | none => Transport.unix addr

/-- The whitespace stripped by Python `str.strip()` (ASCII part; the
    commands here are ASCII). -/
def isPySpace (c : Char) : Bool :=
  c.toNat = 32 || c.toNat = 9 || c.toNat = 10 || c.toNat = 13 ||
  c.toNat = 11 || c.toNat = 12

/-- Python `command.strip()`. -/
def pyStrip (s : String) : String :=
  String.mk (((s.data.dropWhile isPySpace).reverse.dropWhile isPySpace).reverse)

/-- UTF-8 encoding of one character (Python `str.encode()`). -/
def charUtf8 (c : Char) : List Nat :=
  let n := c.toNat
  if n < 0x80 then [n]
  else if n < 0x800 then [0xC0 + n / 64, 0x80 + n % 64]
  else if n < 0x10000 then
    [0xE0 + n / 4096, 0x80 + (n / 64) % 64, 0x80 + n % 64]
  else
    [0xF0 + n / 262144, 0x80 + (n / 4096) % 64, 0x80 + (n / 64) % 64,
     0x80 + n % 64]

/-- Python `s.encode()`: UTF-8 bytes of a string. -/
def strBytes (s : String) : List Nat := s.data.flatMap charUtf8

/-- Whether `b` is a UTF-8 continuation byte. -/
def isCont (b : Nat) : Bool := 0x80 ≤ b && b < 0xC0

/-- Decode the continuation of a 2-byte UTF-8 sequence with lead byte
    `b` (C2-DF): one continuation byte. -/
def dec2 (b : Nat) : List Nat → Option (Char × List Nat)
  | b1 :: bs =>
    if isCont b1 then some (Char.ofNat ((b - 0xC0) * 64 + (b1 - 0x80)), bs)
    else none
  | [] => none

/-- Decode the continuation of a 3-byte UTF-8 sequence with lead byte
    `b` (E0-EF): two continuation bytes, rejecting overlong forms (E0
    needs A0-BF) and surrogates (ED needs 80-9F). -/
def dec3 (b : Nat) : List Nat → Option (Char × List Nat)
  | b1 :: b2 :: bs =>
    if isCont b1 && isCont b2 && !(b == 0xE0 && b1 < 0xA0) &&
        !(b == 0xED && 0xA0 ≤ b1) then
      some (Char.ofNat ((b - 0xE0) * 4096 + (b1 - 0x80) * 64 + (b2 - 0x80)), bs)
    else none
  | [_] => none
  | [] => none

/-- Decode the continuation of a 4-byte UTF-8 sequence with lead byte
    `b` (F0-F4): three continuation bytes, rejecting overlong forms (F0
    needs 90-BF) and codepoints above U+10FFFF (F4 needs 80-8F). -/
def dec4 (b : Nat) : List Nat → Option (Char × List Nat)
  | b1 :: b2 :: b3 :: bs =>
    if isCont b1 && isCont b2 && isCont b3 &&
        !(b == 0xF0 && b1 < 0x90) && !(b == 0xF4 && 0x90 ≤ b1) then
      some (Char.ofNat ((b - 0xF0) * 262144 + (b1 - 0x80) * 4096 +
        (b2 - 0x80) * 64 + (b3 - 0x80)), bs)
    else none
  | [_, _] => none
  | [_] => none
  | [] => none

/-- Decode one UTF-8 character from the front of a byte list: the
    character and the remaining bytes, or `none` on empty input or a
    malformed sequence (stray continuation byte, overlong lead C0/C1,
    lead above F4, bad continuation). -/
def utf8Step : List Nat → Option (Char × List Nat)
  | [] => none
  | b :: bs =>
    if b < 0x80 then some (Char.ofNat b, bs)
    else if b < 0xC2 then none
    else if b < 0xE0 then dec2 b bs
    else if b < 0xF0 then dec3 b bs
    else if b < 0xF5 then dec4 b bs
    else none

theorem utf8Step_rest_lt :
    ∀ (l : List Nat) (c : Char) (rest : List Nat),
      utf8Step l = some (c, rest) → rest.length < l.length := by
  intro l c rest h
  match l with
  | [] => simp [utf8Step] at h
  | b :: bs =>
    simp only [utf8Step] at h
    split at h
    · cases h; simp
    · split at h
      · cases h
      · split at h
        · match bs with
          | [] => simp [dec2] at h
          | b1 :: bs1 =>
            simp only [dec2] at h
            split at h
            · injection h with h2
              injection h2 with hc hr
              subst hr
              simp
              omega
            · cases h
        · split at h
          · match bs with
            | [] => simp [dec3] at h
            | [b1] => simp [dec3] at h
            | b1 :: b2 :: bs2 =>
              simp only [dec3] at h
              split at h
              · injection h with h2
                injection h2 with hc hr
                subst hr
                simp
                omega
              · cases h
          · split at h
            · match bs with
              | [] => simp [dec4] at h
              | [b1] => simp [dec4] at h
              | [b1, b2] => simp [dec4] at h
              | b1 :: b2 :: b3 :: bs3 =>
                simp only [dec4] at h
                split at h
                · injection h with h2
                  injection h2 with hc hr
                  subst hr
                  simp
                  omega
                · cases h
            · cases h

/-- Fuel-driven UTF-8 decoding loop; fuel at least the list length never
    runs out (`utf8Step` always consumes at least one byte). -/
def utf8DecF : Nat → List Nat → Option (List Char)
  | _, [] => some []
  | 0, _ :: _ => none
  | fuel + 1, b :: bs =>
    match utf8Step (b :: bs) with
    | none => none
    | some (c, rest) => (utf8DecF fuel rest).map (fun cs => c :: cs)

/-- Strict UTF-8 decoding (Python `bytes.decode()`): rejects truncated
    sequences, stray continuation bytes, overlong forms, surrogates and
    codepoints above U+10FFFF. -/
def utf8Dec (l : List Nat) : Option (List Char) := utf8DecF l.length l

/-- Python slice `cs[:-n]` on a decoded string (`n` is `len(marker)` in
    bytes; `[:-0]` would be the empty slice). -/
def pySliceDropLast (cs : List Char) (n : Nat) : List Char :=
  if n = 0 then [] else cs.take (cs.length - n)

/-! ### The Connection constants (lines 11-14) -/

/-- `END_MARKER = b'\r\nEND\r\n'` -/
def Connection.END_MARKER : List Nat := [13, 10, 69, 78, 68, 13, 10]

/-- `QUIT_CMD = 'quit'` -/
def Connection.QUIT_CMD : String := "quit"

/-- `QUIT_MARKER = b'Bye!\r\n'` -/
def Connection.QUIT_MARKER : List Nat := [66, 121, 101, 33, 13, 10]

/-! ### The send/recv loops of `Connection.send` -/

/-- The write loop, lines 45-51: `total = 0; while total < len(request):
    sent = socket.send(request[total:]); total += sent;
    if sent == 0: socket = None; raise OSError('Connection lost')`.
    Returns (raised exception if any, whether `self.socket` was set to
    `None`, remaining scripted send events). -/
def sendAll (req : List Nat) : Nat → List SendEv →
    Option PyError × Bool × List SendEv
  | total, [] =>
    if total < req.length then (some PyError.scriptEnd, false, [])
    else (none, false, [])
  | total, ev :: rest =>
    if total < req.length then
      match ev with
      | SendEv.sent n =>
        if n = 0 then (some PyError.connectionLost, true, rest)
        else sendAll req (total + n) rest
      | SendEv.raises e => (some e.toPy, false, rest)
    else (none, false, ev :: rest)

/-- The read loop, lines 53-59: `reply = bytearray();
    while not reply.endswith(marker): chunk = socket.recv(BUFSIZE);
    if not chunk: socket = None; raise OSError('Connection lost');
    reply += chunk`.
    Returns (raised exception if any, whether `self.socket` was set to
    `None`, the accumulated reply, remaining scripted recv events). -/
def recvUntil (marker : List Nat) : List Nat → List RecvEv →
    Option PyError × Bool × List Nat × List RecvEv
  | reply, [] =>
    if marker.isSuffixOf reply then (none, false, reply, [])
    else (some PyError.scriptEnd, false, reply, [])
  | reply, ev :: rest =>
    if marker.isSuffixOf reply then (none, false, reply, ev :: rest)
    else
      match ev with
      | RecvEv.chunk bs =>
        if bs = [] then (some PyError.connectionLost, true, reply, rest)
        else recvUntil marker (reply ++ bs) rest
      | RecvEv.raises e => (some e.toPy, false, reply, rest)

/-! ### The Connection methods -/

/-- `Connection._connect`, lines 24-37.  Python assigns `self.socket`
    to a fresh socket object before calling `connect()` on it, so on a
    failed connect the attribute holds an unconnected socket (`estab =
    false`); `settimeout(0.1)` is modelled by allowing `timeout` recv
    events.  Returns (raised exception if any, new state, new script). -/
def Connection.connect (c : Connection) (w : World) :
    Option PyError × Connection × World :=
  let t := selectTransport c.socket_addr
  match w.connects with
  | [] => (some PyError.scriptEnd, c, w)
  | ok :: rest =>
    if ok then
      (none, { c with socket := some ⟨t, true, false⟩ },
       { w with connects := rest })
    else
      (some PyError.connectFailed, { c with socket := some ⟨t, false, false⟩ },
       { w with connects := rest })

/-- Lines 53-60 of `Connection.send` after a successful write: the read
    loop, then `return reply.decode()[:-len(marker)]`. -/
def Connection.readPhase (c : Connection) (h : Handle) (w : World)
    (marker : List Nat) : Except PyError String × Connection × World :=
  match recvUntil marker [] w.recvs with
  | (some e, dropped, _, recvs1) =>
    (Except.error e, { c with socket := if dropped then none else some h },
     { w with recvs := recvs1 })
  | (none, _, reply, recvs1) =>
    match utf8Dec reply with
    | none => (Except.error PyError.unicodeError, c, { w with recvs := recvs1 })
    | some cs =>
      (Except.ok (String.mk (pySliceDropLast cs marker.length)), c,
       { w with recvs := recvs1 })

/-- The body of `Connection.send` once a socket object is present
    (lines 44-60).  A closed or never-connected socket makes the first
    `socket.send` raise an OSError (EBADF / ENOTCONN) without touching
    the wire. -/
def Connection.sendBody (c : Connection) (h : Handle) (w : World)
    (command : String) (marker : List Nat) :
    Except PyError String × Connection × World :=
  let request := strBytes (pyStrip command) ++ [10]
  if h.closed || !h.estab then (Except.error PyError.sockError, c, w)
  else
    match sendAll request 0 w.sends with
    | (some e, dropped, sends1) =>
      (Except.error e, { c with socket := if dropped then none else some h },
       { w with sends := sends1 })
    | (none, _, sends1) =>
      Connection.readPhase c h { w with sends := sends1 } marker

/-- `Connection.send`, lines 39-60: lazily connect when `self.socket is
    None`, then perform the framed exchange. -/
def Connection.send (c : Connection) (w : World) (command : String)
    (marker : List Nat) : Except PyError String × Connection × World :=
  match c.socket with
  | none =>
    match Connection.connect c w with
    | (some e, c1, w1) => (Except.error e, c1, w1)
    | (none, c1, w1) =>
      match c1.socket with
      | some h => Connection.sendBody c1 h w1 command marker
      | none => (Except.error PyError.attributeError, c1, w1)
  | some h => Connection.sendBody c h w command marker

/-- `Connection.__exit__`, lines 62-70: if a socket object is present,
    attempt `send('quit', QUIT_MARKER)`, swallow an OSError from it, then
    run `self.socket.close()` — which raises AttributeError when `send`
    has set `self.socket` to `None`, and otherwise closes the handle
    (without setting the attribute back to `None`). -/
def Connection.exit (c : Connection) (w : World) :
    Except PyError Unit × Connection × World :=
  match c.socket with
  | none => (Except.ok (), c, w)
  | some _ =>
    match Connection.send c w Connection.QUIT_CMD Connection.QUIT_MARKER with
    | (r, c1, w1) =>
      let caught : Option PyError :=
        match r with
        | Except.ok _ => none
        | Except.error e => if isOSError e then none else some e
      match caught with
      | some e => (Except.error e, c1, w1)
      | none =>
        match c1.socket with
        | none => (Except.error PyError.attributeError, c1, w1)
        | some h =>
          (Except.ok (), { c1 with socket := some { h with closed := true } }, w1)

/-- `Console._send`, lines 84-89: send the line; on OSError send the
    same line once more (the lazy reconnect happens inside the second
    `Connection.send` when the handle was dropped). -/
def Console.send (c : Connection) (w : World) (line : String) :
    Except PyError String × Connection × World :=
  match Connection.send c w line Connection.END_MARKER with
  | (Except.error e, c1, w1) =>
    if isOSError e then Connection.send c1 w1 line Connection.END_MARKER
    else (Except.error e, c1, w1)
  | r => r

/-! ### Helper lemmas -/

theorem splitFirst_none {sep : Char} :
    ∀ l : List Char, sep ∉ l → splitFirst sep l = none := by
  intro l hl
  induction l with
  | nil => rfl
  | cons c cs ih =>
    have hc : ¬c = sep := fun h => hl (h ▸ List.mem_cons_self c cs)
    have hcs : sep ∉ cs := fun h => hl (List.mem_cons_of_mem c h)
    simp [splitFirst, hc, ih hcs]

theorem splitFirst_app {sep : Char} :
    ∀ (pre post : List Char), sep ∉ pre →
      splitFirst sep (pre ++ sep :: post) = some (pre, post) := by
  intro pre post hpre
  induction pre with
  | nil => simp [splitFirst]
  | cons c cs ih =>
    have hc : ¬c = sep := fun h => hpre (h ▸ List.mem_cons_self c cs)
    have hcs : sep ∉ cs := fun h => hpre (List.mem_cons_of_mem c h)
    simp [splitFirst, hc, ih hcs]

theorem Connection.eta (c : Connection) (h : Handle) (hs : c.socket = some h) :
    { c with socket := some h } = c := by
  cases c with
  | mk addr sock => simp only at hs; rw [← hs]

/-- Dropping the handle and raising the connection-lost error coincide in
    the write loop. -/
theorem sendAll_lost_iff (req : List Nat) :
    ∀ (total : Nat) (evs : List SendEv),
      ((sendAll req total evs).1 = some PyError.connectionLost ↔
        (sendAll req total evs).2.1 = true) := by
  intro total evs
  induction evs generalizing total with
  | nil =>
    by_cases h : total < req.length <;> simp [sendAll, h]
  | cons ev rest ih =>
    by_cases h : total < req.length
    · cases ev with
      | sent n =>
        by_cases hn : n = 0 <;> simp [sendAll, h, hn, ih]
      | raises e =>
        cases e <;> simp [sendAll, h, SockErr.toPy]
    · simp [sendAll, h]

/-- Dropping the handle and raising the connection-lost error coincide in
    the read loop. -/
theorem recvUntil_lost_iff (marker : List Nat) :
    ∀ (reply : List Nat) (evs : List RecvEv),
      ((recvUntil marker reply evs).1 = some PyError.connectionLost ↔
        (recvUntil marker reply evs).2.1 = true) := by
  intro reply evs
  induction evs generalizing reply with
  | nil =>
    by_cases h : marker.isSuffixOf reply <;> simp [recvUntil, h]
  | cons ev rest ih =>
    by_cases h : marker.isSuffixOf reply
    · simp [recvUntil, h]
    · cases ev with
      | chunk bs =>
        by_cases hb : bs = [] <;> simp [recvUntil, h, hb, ih]
      | raises e =>
        cases e <;> simp [recvUntil, h, SockErr.toPy]

/-! ### C5: transport selection -/

/-- C5: for every address string, the transport is selected by colon
    presence: an address containing a colon is split at the first colon
    into host and port and a TCP socket is opened for them; an address
    with no colon is opened as a Unix domain socket path.  The third
    conjunct ties the selected transport to the socket that a successful
    `_connect` installs. -/
theorem transport_by_colon :
    (∀ (addr : String) (pre post : List Char), addr.data = pre ++ ':' :: post →
        ':' ∉ pre →
        selectTransport addr = Transport.tcp (String.mk pre) (String.mk post))
    ∧ (∀ addr : String, ':' ∉ addr.data → selectTransport addr = Transport.unix addr)
    ∧ (∀ (c : Connection) (w : World) (rest : List Bool), w.connects = true :: rest →
        Connection.connect c w =
          (none, { c with socket := some ⟨selectTransport c.socket_addr, true, false⟩ },
           { w with connects := rest })) := by
  refine ⟨?_, ?_, ?_⟩
  · intro addr pre post haddr hpre
    unfold selectTransport
    rw [haddr, splitFirst_app pre post hpre]
  · intro addr h
    unfold selectTransport
    rw [splitFirst_none addr.data h]
  · intro c w rest hw
    simp [Connection.connect, hw]

/-- Witness for C5 at the spec scenarios: a path selects the local
    socket, a host:port string selects TCP. -/
theorem transport_by_colon_witness :
    selectTransport "/tmp/ls.sock" = Transport.unix "/tmp/ls.sock" ∧
    selectTransport "localhost:1234" =
      Transport.tcp (String.mk "localhost".data) (String.mk "1234".data) :=
  ⟨transport_by_colon.2.1 "/tmp/ls.sock" (by decide),
   transport_by_colon.1 "localhost:1234" "localhost".data "1234".data
     (by decide) (by decide)⟩

/-! ### C7: connect failure -/

/-- C7: whenever the underlying connect call fails, `_connect` raises the
    connect-failure error, surfaced immediately to the caller (also when
    reached lazily through `send`), with exactly one connect attempt
    consumed and nothing retried. -/
theorem connect_failure_surfaced :
    (∀ (c : Connection) (w : World) (rest : List Bool), w.connects = false :: rest →
        Connection.connect c w =
          (some PyError.connectFailed,
           { c with socket := some ⟨selectTransport c.socket_addr, false, false⟩ },
           { w with connects := rest }))
    ∧ (∀ (c : Connection) (w : World) (rest : List Bool) (cmd : String) (m : List Nat),
        c.socket = none → w.connects = false :: rest →
        Connection.send c w cmd m =
          (Except.error PyError.connectFailed,
           { c with socket := some ⟨selectTransport c.socket_addr, false, false⟩ },
           { w with connects := rest })) := by
  constructor
  · intro c w rest hw
    simp [Connection.connect, hw]
  · intro c w rest cmd m hs hw
    have h1 : Connection.connect c w =
        (some PyError.connectFailed,
         { c with socket := some ⟨selectTransport c.socket_addr, false, false⟩ },
         { w with connects := rest }) := by
      simp [Connection.connect, hw]
    simp [Connection.send, hs, h1]

/-- Witness for C7: a refused TCP connect surfaces immediately from a
    lazy `send`. -/
theorem connect_failure_surfaced_witness :
    Connection.send ⟨"nohost:99", none⟩ ⟨[false], [], []⟩ "version"
        Connection.END_MARKER =
      (Except.error PyError.connectFailed,
       ⟨"nohost:99", some ⟨selectTransport "nohost:99", false, false⟩⟩,
       ⟨[], [], []⟩) :=
  connect_failure_surfaced.2 ⟨"nohost:99", none⟩ ⟨[false], [], []⟩ [] "version"
    Connection.END_MARKER rfl rfl

/-! ### C8: idempotent shutdown -/

/-- C8: calling `close()` (`__exit__`) on an already-closed connection —
    no socket object, or a socket whose OS handle is closed — is a no-op:
    it returns without raising, changes no state and consumes no socket
    events. -/
theorem close_idempotent (c : Connection) (w : World)
    (hc : c.socket = none ∨ ∃ h : Handle, c.socket = some h ∧ h.closed = true) :
    Connection.exit c w = (Except.ok (), c, w) := by
  rcases hc with hnone | ⟨h, hs, hcl⟩
  · simp [Connection.exit, hnone]
  · have hh : { h with closed := true } = h := by
      cases h with
      | mk t e cl => simp only at hcl; rw [hcl]
    simp [Connection.exit, hs, Connection.send, Connection.sendBody, hcl,
      isOSError, hh, Connection.eta c h hs]

/-- Witness for C8: a second `close()` on a connection whose handle was
    closed by the first one returns successfully and changes nothing. -/
theorem close_idempotent_witness :
    Connection.exit ⟨"s", some ⟨Transport.unix "s", true, true⟩⟩ ⟨[], [], []⟩ =
      (Except.ok (), ⟨"s", some ⟨Transport.unix "s", true, true⟩⟩, ⟨[], [], []⟩) :=
  close_idempotent ⟨"s", some ⟨Transport.unix "s", true, true⟩⟩ ⟨[], [], []⟩
    (Or.inr ⟨⟨Transport.unix "s", true, true⟩, rfl, rfl⟩)

/-! ### C3: the scoped-exit path can raise -/

/-- C3 (code bug): when the best-effort quit exchange loses the
    connection (the peer closes, so `send` sets `self.socket = None` and
    raises `OSError`), `__exit__` swallows the OSError but then evaluates
    `self.socket.close()` on `None`, raising AttributeError — so the
    scoped-exit path does raise, and no transport handle is closed. -/
theorem exit_raises_after_lost_quit :
    (Connection.exit
        ⟨"localhost:1234", some ⟨Transport.tcp "localhost" "1234", true, false⟩⟩
        ⟨[], [SendEv.sent 5], [RecvEv.chunk []]⟩).1 =
      Except.error PyError.attributeError := by
  rfl

/-! ### C2: a receive timeout is surfaced, not retried -/

/-- Counterexample to C2 as stated: an otherwise-successful exchange (the
    terminator is the very next chunk after one 100 ms timeout) fails:
    `send` surfaces `socket.timeout` to its caller instead of retrying
    the read. -/
theorem send_timeout_surfaces_cex :
    (Connection.send
        ⟨"localhost:1234", some ⟨Transport.tcp "localhost" "1234", true, false⟩⟩
        ⟨[], [SendEv.sent 8],
         [RecvEv.raises SockErr.timeout, RecvEv.chunk Connection.END_MARKER]⟩
        "version" Connection.END_MARKER).1 =
      Except.error PyError.sockTimeout := by
  rfl

theorem utf8DecF_succ_cons (fuel b : Nat) (bs : List Nat) :
    utf8DecF (fuel + 1) (b :: bs) =
      match utf8Step (b :: bs) with
      | none => none
      | some (c, rest) => (utf8DecF fuel rest).map (fun cs => c :: cs) := rfl

theorem utf8DecF_irrel :
    ∀ (f1 : Nat) (l : List Nat) (f2 : Nat), l.length ≤ f1 → l.length ≤ f2 →
      utf8DecF f1 l = utf8DecF f2 l := by
  intro f1
  induction f1 with
  | zero =>
    intro l f2 h1 h2
    match l with
    | [] => cases f2 <;> rfl
    | b :: bs => simp at h1
  | succ g ih =>
    intro l f2 h1 h2
    match l with
    | [] => cases f2 <;> rfl
    | b :: bs =>
      match f2 with
      | 0 => simp at h2
      | g2 + 1 =>
        rw [utf8DecF_succ_cons, utf8DecF_succ_cons]
        rcases hstep : utf8Step (b :: bs) with _ | ⟨c, rest⟩
        · rfl
        · have hlt := utf8Step_rest_lt _ _ _ hstep
          simp only [List.length_cons] at h1 h2 hlt
          exact congrArg (Option.map fun cs => c :: cs) (ih rest g2 (by omega) (by omega))

theorem utf8Dec_cons_none (b : Nat) (bs : List Nat)
    (hstep : utf8Step (b :: bs) = none) : utf8Dec (b :: bs) = none := by
  show utf8DecF (b :: bs).length (b :: bs) = none
  simp only [List.length_cons]
  rw [utf8DecF_succ_cons, hstep]

theorem utf8Dec_cons_some (b : Nat) (bs : List Nat) (c : Char) (rest : List Nat)
    (hstep : utf8Step (b :: bs) = some (c, rest)) :
    utf8Dec (b :: bs) = (utf8Dec rest).map (fun cs => c :: cs) := by
  have hlt := utf8Step_rest_lt _ _ _ hstep
  simp only [List.length_cons] at hlt
  have h1 : utf8Dec (b :: bs) = (utf8DecF bs.length rest).map (fun cs => c :: cs) := by
    show utf8DecF (b :: bs).length (b :: bs) = _
    simp only [List.length_cons]
    rw [utf8DecF_succ_cons, hstep]
  rw [h1, utf8DecF_irrel bs.length rest rest.length (by omega) le_rfl]
  rfl

theorem dec2_append (x : Nat) (xs b : List Nat) (c : Char) (rest : List Nat)
    (h : dec2 x xs = some (c, rest)) :
    dec2 x (xs ++ b) = some (c, rest ++ b) := by
  match xs with
  | [] => simp [dec2] at h
  | b1 :: xs1 =>
    simp only [dec2, List.cons_append] at h ⊢
    split_ifs at h ⊢ with hcond
    rw [Option.some.injEq, Prod.mk.injEq] at h
    obtain ⟨hc, hr⟩ := h
    subst hc; subst hr; rfl

theorem dec3_append (x : Nat) (xs b : List Nat) (c : Char) (rest : List Nat)
    (h : dec3 x xs = some (c, rest)) :
    dec3 x (xs ++ b) = some (c, rest ++ b) := by
  match xs with
  | [] => simp [dec3] at h
  | [b1] => simp [dec3] at h
  | b1 :: b2 :: xs2 =>
    simp only [dec3, List.cons_append] at h ⊢
    split_ifs at h ⊢ with hcond
    rw [Option.some.injEq, Prod.mk.injEq] at h
    obtain ⟨hc, hr⟩ := h
    subst hc; subst hr; rfl

theorem dec4_append (x : Nat) (xs b : List Nat) (c : Char) (rest : List Nat)
    (h : dec4 x xs = some (c, rest)) :
    dec4 x (xs ++ b) = some (c, rest ++ b) := by
  match xs with
  | [] => simp [dec4] at h
  | [b1] => simp [dec4] at h
  | [b1, b2] => simp [dec4] at h
  | b1 :: b2 :: b3 :: xs3 =>
    simp only [dec4, List.cons_append] at h ⊢
    split_ifs at h ⊢ with hcond
    rw [Option.some.injEq, Prod.mk.injEq] at h
    obtain ⟨hc, hr⟩ := h
    subst hc; subst hr; rfl

theorem utf8Step_append (a b : List Nat) (c : Char) (rest : List Nat)
    (h : utf8Step a = some (c, rest)) :
    utf8Step (a ++ b) = some (c, rest ++ b) := by
  match a with
  | [] => simp [utf8Step] at h
  | x :: xs =>
    simp only [utf8Step, List.cons_append] at h ⊢
    split_ifs at h ⊢ <;> first
      | (injection h with h2; injection h2 with hc hr; subst hc; subst hr; rfl)
      | cases h
      | exact dec2_append x xs b c rest h
      | exact dec3_append x xs b c rest h
      | exact dec4_append x xs b c rest h

/-- UTF-8 decoding of a concatenation splits when the first part decodes
    on its own (left-to-right decoding never looks past a valid
    sequence). -/
theorem utf8Dec_append :
    ∀ (n : Nat) (a : List Nat) (ca : List Char) (b : List Nat), a.length ≤ n →
      utf8Dec a = some ca →
      utf8Dec (a ++ b) = (utf8Dec b).map (fun cb => ca ++ cb) := by
  intro n
  induction n with
  | zero =>
    intro a ca b ha hdec
    match a with
    | [] =>
      have hca : ca = [] := by
        have h0 : utf8Dec [] = some [] := rfl
        rw [h0] at hdec
        injection hdec with h1
        exact h1.symm
      subst hca
      rcases hb : utf8Dec b with _ | cb <;> simp [hb]
    | x :: xs => simp at ha
  | succ g ih =>
    intro a ca b ha hdec
    match a with
    | [] =>
      have hca : ca = [] := by
        have h0 : utf8Dec [] = some [] := rfl
        rw [h0] at hdec
        injection hdec with h1
        exact h1.symm
      subst hca
      rcases hb : utf8Dec b with _ | cb <;> simp [hb]
    | x :: xs =>
      rcases hstep : utf8Step (x :: xs) with _ | ⟨c, rest⟩
      · rw [utf8Dec_cons_none x xs hstep] at hdec; cases hdec
      · rw [utf8Dec_cons_some x xs c rest hstep] at hdec
        rcases hmap : utf8Dec rest with _ | cr
        · rw [hmap] at hdec; cases hdec
        · rw [hmap] at hdec
          have hca : c :: cr = ca := by
            have h2 : (some (c :: cr) : Option (List Char)) = some ca := hdec
            injection h2
          subst hca
          have hlt := utf8Step_rest_lt _ _ _ hstep
          simp only [List.length_cons] at hlt ha
          have hIH := ih rest cr b (by omega) hmap
          have hstep2 := utf8Step_append (x :: xs) b c rest hstep
          rw [List.cons_append] at hstep2
          rw [List.cons_append, utf8Dec_cons_some (x) (xs ++ b) c (rest ++ b) hstep2]
          rw [hIH]
          rcases hb : utf8Dec b with _ | cb <;> simp [hb]

/-- The characters of the decoded end marker. -/
def endMarkerChars : List Char :=
  [Char.ofNat 13, Char.ofNat 10, 'E', 'N', 'D', Char.ofNat 13, Char.ofNat 10]

theorem utf8Dec_END : utf8Dec Connection.END_MARKER = some endMarkerChars := by
  rfl

theorem isSuffixOf_append_self (m t : List Nat) :
    m.isSuffixOf (t ++ m) = true := by
  simp [List.isSuffixOf_iff_suffix]

theorem pySlice_append (cs m : List Char) (hm : m ≠ []) :
    pySliceDropLast (cs ++ m) m.length = cs := by
  have h0 : m.length ≠ 0 := fun h => hm (List.length_eq_zero.mp h)
  unfold pySliceDropLast
  rw [if_neg h0, List.length_append, Nat.add_sub_cancel, List.take_left]

/-- One step of the read loop on a non-empty chunk that does not yet
    complete the marker. -/
theorem recvUntil_step (marker reply bs : List Nat) (evs : List RecvEv)
    (hsf : marker.isSuffixOf reply = false) (hbs : bs ≠ []) :
    recvUntil marker reply (RecvEv.chunk bs :: evs) =
      recvUntil marker (reply ++ bs) evs := by
  simp [recvUntil, hsf, hbs]

/-- A single write accepting the whole request completes the write loop. -/
theorem sendAll_one (req : List Nat) (h : req ≠ []) :
    sendAll req 0 [SendEv.sent req.length] = (none, false, []) := by
  have h0 : 0 < req.length := List.length_pos.mpr h
  simp [sendAll, h0, h0.ne', Nat.lt_irrefl]

/-- The write loop succeeds over any sequence of non-zero partial writes
    that first reaches the request length exactly at its end, consuming
    exactly those events. -/
theorem sendAll_covers (req : List Nat) :
    ∀ (ns : List Nat) (rest : List SendEv) (total : Nat),
      (∀ n ∈ ns, n ≠ 0) →
      (∀ k, k < ns.length → total + (ns.take k).sum < req.length) →
      req.length ≤ total + ns.sum →
      sendAll req total (ns.map SendEv.sent ++ rest) = (none, false, rest) := by
  intro ns
  induction ns with
  | nil =>
    intro rest total hnz hpref hsum
    simp only [List.sum_nil, Nat.add_zero] at hsum
    have hnl : ¬total < req.length := by omega
    match rest with
    | [] => simp [sendAll, hnl]
    | ev :: r => simp [sendAll, hnl]
  | cons n ns ih =>
    intro rest total hnz hpref hsum
    have h0 : total < req.length := by
      have h1 := hpref 0 (by simp)
      simpa using h1
    have hn : n ≠ 0 := hnz n (by simp)
    rw [List.map_cons, List.cons_append]
    rw [show sendAll req total (SendEv.sent n :: (ns.map SendEv.sent ++ rest)) =
        sendAll req (total + n) (ns.map SendEv.sent ++ rest) from by
      simp [sendAll, h0, hn]]
    apply ih
    · intro x hx; exact hnz x (by simp [hx])
    · intro k hk
      have h2 := hpref (k + 1) (by simp; omega)
      simp only [List.take_succ_cons, List.sum_cons] at h2
      omega
    · simp only [List.sum_cons] at hsum
      omega

/-- A write that reports zero bytes sent, reached after non-zero partial
    writes that have not yet covered the request, makes the write loop
    drop the socket and raise the connection-lost error. -/
theorem sendAll_zero (req : List Nat) :
    ∀ (pre : List Nat) (rest : List SendEv) (total : Nat),
      (∀ n ∈ pre, n ≠ 0) →
      total + pre.sum < req.length →
      sendAll req total (pre.map SendEv.sent ++ SendEv.sent 0 :: rest) =
        (some PyError.connectionLost, true, rest) := by
  intro pre
  induction pre with
  | nil =>
    intro rest total hnz hlt
    simp only [List.sum_nil, Nat.add_zero] at hlt
    simp [sendAll, hlt]
  | cons n pre ih =>
    intro rest total hnz hlt
    simp only [List.sum_cons] at hlt
    have h0 : total < req.length := by omega
    have hn : n ≠ 0 := hnz n (by simp)
    rw [List.map_cons, List.cons_append]
    rw [show sendAll req total
          (SendEv.sent n :: (pre.map SendEv.sent ++ SendEv.sent 0 :: rest)) =
        sendAll req (total + n) (pre.map SendEv.sent ++ SendEv.sent 0 :: rest) from by
      simp [sendAll, h0, hn]]
    apply ih
    · intro x hx; exact hnz x (by simp [hx])
    · omega

/-- The read loop consumes chunks that reassemble exactly `data ++
    marker`, stopping the first time the accumulated buffer ends with the
    marker; when the marker occurs only at the very end, this is after
    the final chunk, with the full reply accumulated. -/
theorem recvUntil_chunks (marker data : List Nat) :
    ∀ (chunks : List (List Nat)) (acc : List Nat),
      acc ++ chunks.flatten = data ++ marker →
      (∀ b ∈ chunks, b ≠ []) →
      (∀ n, n < (data ++ marker).length →
          marker.isSuffixOf ((data ++ marker).take n) = false) →
      recvUntil marker acc (chunks.map RecvEv.chunk) =
        (none, false, data ++ marker, []) := by
  intro chunks
  induction chunks with
  | nil =>
    intro acc hjoin hne hmid
    simp only [List.flatten_nil, List.append_nil] at hjoin
    subst hjoin
    simp [recvUntil, isSuffixOf_append_self]
  | cons b chs ih =>
    intro acc hjoin hne hmid
    have hb : b ≠ [] := hne b (by simp)
    have hlen : acc.length < (data ++ marker).length := by
      rw [← hjoin]
      simp only [List.flatten_cons, List.length_append]
      have hbl : 0 < b.length := List.length_pos.mpr hb
      omega
    have htake : (data ++ marker).take acc.length = acc := by
      rw [← hjoin]
      exact List.take_left acc _
    have hsf : marker.isSuffixOf acc = false := by
      have h1 := hmid acc.length hlen
      rwa [htake] at h1
    rw [List.map_cons, recvUntil_step marker acc b (chs.map RecvEv.chunk) hsf hb]
    apply ih
    · rw [List.append_assoc]
      simpa [List.flatten_cons] using hjoin
    · intro x hx; exact hne x (by simp [hx])
    · exact hmid

/-- A read returning zero bytes, reached after non-empty chunks whose
    accumulation never ends with the marker, makes the read loop drop the
    socket and raise the connection-lost error. -/
theorem recvUntil_zero (marker : List Nat) :
    ∀ (chunks : List (List Nat)) (rest : List RecvEv) (acc : List Nat),
      (∀ b ∈ chunks, b ≠ []) →
      (∀ n, n ≤ (acc ++ chunks.flatten).length →
          marker.isSuffixOf ((acc ++ chunks.flatten).take n) = false) →
      recvUntil marker acc (chunks.map RecvEv.chunk ++ RecvEv.chunk [] :: rest) =
        (some PyError.connectionLost, true, acc ++ chunks.flatten, rest) := by
  intro chunks
  induction chunks with
  | nil =>
    intro rest acc hne hmid
    have hsf : marker.isSuffixOf acc = false := by
      have h1 := hmid acc.length (by simp)
      simpa [List.take_length] using h1
    simp [recvUntil, hsf]
  | cons b chs ih =>
    intro rest acc hne hmid
    have hb : b ≠ [] := hne b (by simp)
    have htake : (acc ++ (b :: chs).flatten).take acc.length = acc :=
      List.take_left acc _
    have hsf : marker.isSuffixOf acc = false := by
      have h1 := hmid acc.length (by simp)
      rwa [htake] at h1
    have heq : (acc ++ b) ++ chs.flatten = acc ++ (b :: chs).flatten := by
      simp [List.flatten_cons, List.append_assoc]
    have hmid2 : ∀ n, n ≤ ((acc ++ b) ++ chs.flatten).length →
        marker.isSuffixOf (((acc ++ b) ++ chs.flatten).take n) = false := by
      intro n hn
      rw [heq] at hn ⊢
      exact hmid n hn
    rw [List.map_cons, List.cons_append,
      recvUntil_step marker acc b _ hsf hb,
      ih rest (acc ++ b) (fun x hx => hne x (by simp [hx])) hmid2, heq]

/-- `send` with a socket object present is its body (no connect). -/
theorem send_of_some (c : Connection) (h : Handle) (w : World) (cmd : String)
    (m : List Nat) (hs : c.socket = some h) :
    Connection.send c w cmd m = Connection.sendBody c h w cmd m := by
  simp [Connection.send, hs]

/-- The read phase either leaves the connection untouched (and does not
    raise the connection-lost error) or drops the socket and raises
    exactly the connection-lost error. -/
theorem readPhase_cases (c : Connection) (h : Handle) (w : World) (m : List Nat)
    (hs : c.socket = some h) :
    ((Connection.readPhase c h w m).2.1 = c ∧
        (Connection.readPhase c h w m).1 ≠ Except.error PyError.connectionLost) ∨
      ((Connection.readPhase c h w m).2.1 = { c with socket := none } ∧
        (Connection.readPhase c h w m).1 = Except.error PyError.connectionLost) := by
  have hiff := recvUntil_lost_iff m [] w.recvs
  rcases hru : recvUntil m [] w.recvs with ⟨eo, d, rep, r1⟩
  rw [hru] at hiff
  simp only [] at hiff
  rcases eo with _ | e
  · rcases hdec : utf8Dec rep with _ | cs
    · left; constructor <;> simp [Connection.readPhase, hru, hdec]
    · left; constructor <;> simp [Connection.readPhase, hru, hdec]
  · cases d with
    | false =>
      left
      have hne : e ≠ PyError.connectionLost := by
        intro he; subst he; simp at hiff
      constructor
      · simp [Connection.readPhase, hru, Connection.eta c h hs]
      · simp [Connection.readPhase, hru, hne]
    | true =>
      right
      have he : e = PyError.connectionLost := by simpa using hiff
      subst he
      constructor <;> simp [Connection.readPhase, hru]

/-- The body of `send` either leaves the connection untouched (and does
    not raise the connection-lost error) or drops the socket and raises
    exactly the connection-lost error. -/
theorem sendBody_cases (c : Connection) (h : Handle) (w : World) (cmd : String)
    (m : List Nat) (hs : c.socket = some h) :
    ((Connection.sendBody c h w cmd m).2.1 = c ∧
        (Connection.sendBody c h w cmd m).1 ≠ Except.error PyError.connectionLost) ∨
      ((Connection.sendBody c h w cmd m).2.1 = { c with socket := none } ∧
        (Connection.sendBody c h w cmd m).1 = Except.error PyError.connectionLost) := by
  by_cases hb : (h.closed || !h.estab) = true
  · left; constructor <;> simp [Connection.sendBody, hb]
  · have hiff := sendAll_lost_iff (strBytes (pyStrip cmd) ++ [10]) 0 w.sends
    rcases hsa : sendAll (strBytes (pyStrip cmd) ++ [10]) 0 w.sends with ⟨eo, d, s1⟩
    rw [hsa] at hiff
    simp only [] at hiff
    rcases eo with _ | e
    · have hred : Connection.sendBody c h w cmd m =
          Connection.readPhase c h { w with sends := s1 } m := by
        simp [Connection.sendBody, hb, hsa]
      rw [hred]
      exact readPhase_cases c h _ m hs
    · cases d with
      | false =>
        left
        have hne : e ≠ PyError.connectionLost := by
          intro he; subst he; simp at hiff
        constructor
        · simp [Connection.sendBody, hb, hsa, Connection.eta c h hs]
        · simp [Connection.sendBody, hb, hsa, hne]
      | true =>
        right
        have he : e = PyError.connectionLost := by simpa using hiff
        subst he
        constructor <;> simp [Connection.sendBody, hb, hsa]

theorem readPhase_world (c : Connection) (h : Handle) (w : World) (m : List Nat) :
    ((Connection.readPhase c h w m).2.2).connects = w.connects ∧
      ((Connection.readPhase c h w m).2.2).sends = w.sends := by
  rcases hru : recvUntil m [] w.recvs with ⟨eo, d, rep, r1⟩
  rcases eo with _ | e
  · rcases hdec : utf8Dec rep with _ | cs <;>
      simp [Connection.readPhase, hru, hdec]
  · simp [Connection.readPhase, hru]

theorem sendBody_connects (c : Connection) (h : Handle) (w : World) (cmd : String)
    (m : List Nat) :
    ((Connection.sendBody c h w cmd m).2.2).connects = w.connects := by
  by_cases hb : (h.closed || !h.estab) = true
  · simp [Connection.sendBody, hb]
  · rcases hsa : sendAll (strBytes (pyStrip cmd) ++ [10]) 0 w.sends with ⟨eo, d, s1⟩
    rcases eo with _ | e
    · have hred : Connection.sendBody c h w cmd m =
          Connection.readPhase c h { w with sends := s1 } m := by
        simp [Connection.sendBody, hb, hsa]
      rw [hred]
      exact (readPhase_world c h _ m).1
    · simp [Connection.sendBody, hb, hsa]

/-! ### C1: a framed exchange returns the decoded text before the marker -/

/-- C1: for every command whose wire reply contains the terminator only
    as its final suffix, and every split of the reply bytes into
    non-empty read chunks (the terminator may arrive split across
    chunks), `send` accumulates reads until the buffer ends with the
    terminator and returns exactly the text the server wrote before the
    terminator, terminator stripped, decoded as text. -/
theorem send_returns_text (c : Connection) (h : Handle) (w : World)
    (command : String) (data : List Nat) (chunks : List (List Nat))
    (cs : List Char)
    (hs : c.socket = some h) (hest : h.estab = true) (hcl : h.closed = false)
    (hw : w.sends = [SendEv.sent ((strBytes (pyStrip command)).length + 1)])
    (hr : w.recvs = chunks.map RecvEv.chunk)
    (hjoin : chunks.flatten = data ++ Connection.END_MARKER)
    (hne : ∀ b ∈ chunks, b ≠ [])
    (hmid : ∀ n, n < (data ++ Connection.END_MARKER).length →
        Connection.END_MARKER.isSuffixOf
          ((data ++ Connection.END_MARKER).take n) = false)
    (hdec : utf8Dec data = some cs) :
    (Connection.send c w command Connection.END_MARKER).1 =
      Except.ok (String.mk cs) := by
  have hreq : (strBytes (pyStrip command) ++ [10]).length =
      (strBytes (pyStrip command)).length + 1 := by simp
  have hreqne : strBytes (pyStrip command) ++ [10] ≠ [] := by simp
  have hsa : sendAll (strBytes (pyStrip command) ++ [10]) 0 w.sends =
      (none, false, []) := by
    rw [hw, ← hreq]
    exact sendAll_one _ hreqne
  have hru : recvUntil Connection.END_MARKER [] w.recvs =
      (none, false, data ++ Connection.END_MARKER, []) := by
    rw [hr]
    exact recvUntil_chunks _ data chunks [] (by simpa using hjoin) hne hmid
  have hdec2 : utf8Dec (data ++ Connection.END_MARKER) =
      some (cs ++ endMarkerChars) := by
    rw [utf8Dec_append data.length data cs Connection.END_MARKER le_rfl hdec,
      utf8Dec_END]
    rfl
  have hslice : pySliceDropLast (cs ++ endMarkerChars)
      Connection.END_MARKER.length = cs := by
    have h7 : Connection.END_MARKER.length = endMarkerChars.length := rfl
    rw [h7]
    exact pySlice_append cs endMarkerChars (by decide)
  simp [Connection.send, hs, Connection.sendBody, hest, hcl, hsa,
    Connection.readPhase, hru, hdec2, hslice]

/-- Witness for C1: the server replies `OK\r\nEND\r\n` in two chunks with
    the terminator split across them; `send("version")` returns `OK`. -/
theorem send_returns_text_witness :
    (Connection.send
        ⟨"localhost:1234", some ⟨Transport.tcp "localhost" "1234", true, false⟩⟩
        ⟨[], [SendEv.sent ((strBytes (pyStrip "version")).length + 1)],
         [RecvEv.chunk [79, 75, 13, 10, 69], RecvEv.chunk [78, 68, 13, 10]]⟩
        "version" Connection.END_MARKER).1 =
      Except.ok (String.mk [Char.ofNat 79, Char.ofNat 75]) :=
  send_returns_text
    ⟨"localhost:1234", some ⟨Transport.tcp "localhost" "1234", true, false⟩⟩
    ⟨Transport.tcp "localhost" "1234", true, false⟩
    ⟨[], [SendEv.sent ((strBytes (pyStrip "version")).length + 1)],
     [RecvEv.chunk [79, 75, 13, 10, 69], RecvEv.chunk [78, 68, 13, 10]]⟩
    "version" [79, 75] [[79, 75, 13, 10, 69], [78, 68, 13, 10]]
    [Char.ofNat 79, Char.ofNat 75]
    rfl rfl rfl rfl rfl (by decide) (by decide) (by decide) (by decide)

/-! ### C4: zero-byte write/read mark Disconnected and raise ConnectionLost -/

/-- C4: during `send`, a write reporting zero bytes sent (first conjunct)
    and a read returning zero bytes (second conjunct) each drop the
    socket handle (Disconnected) and fail with the single
    connection-lost error kind. -/
theorem send_zero_marks_lost :
    (∀ (c : Connection) (h : Handle) (w : World) (cmd : String) (m : List Nat)
        (pre : List Nat) (rest : List SendEv),
      c.socket = some h → h.estab = true → h.closed = false →
      w.sends = pre.map SendEv.sent ++ SendEv.sent 0 :: rest →
      (∀ n ∈ pre, n ≠ 0) →
      pre.sum < (strBytes (pyStrip cmd)).length + 1 →
      (Connection.send c w cmd m).1 = Except.error PyError.connectionLost ∧
        ((Connection.send c w cmd m).2.1).socket = none)
    ∧ (∀ (c : Connection) (h : Handle) (w : World) (cmd : String) (m : List Nat)
        (chunks : List (List Nat)) (rest : List RecvEv),
      c.socket = some h → h.estab = true → h.closed = false →
      w.sends = [SendEv.sent ((strBytes (pyStrip cmd)).length + 1)] →
      w.recvs = chunks.map RecvEv.chunk ++ RecvEv.chunk [] :: rest →
      (∀ b ∈ chunks, b ≠ []) →
      (∀ n, n ≤ chunks.flatten.length →
          m.isSuffixOf (chunks.flatten.take n) = false) →
      (Connection.send c w cmd m).1 = Except.error PyError.connectionLost ∧
        ((Connection.send c w cmd m).2.1).socket = none) := by
  constructor
  · intro c h w cmd m pre rest hs hest hcl hw hnz hlt
    have hz : sendAll (strBytes (pyStrip cmd) ++ [10]) 0 w.sends =
        (some PyError.connectionLost, true, rest) := by
      rw [hw]
      apply sendAll_zero _ pre rest 0 hnz
      simpa using hlt
    constructor <;>
      simp [Connection.send, hs, Connection.sendBody, hest, hcl, hz]
  · intro c h w cmd m chunks rest hs hest hcl hw hr hne hmid
    have hreq : (strBytes (pyStrip cmd) ++ [10]).length =
        (strBytes (pyStrip cmd)).length + 1 := by simp
    have hsa : sendAll (strBytes (pyStrip cmd) ++ [10]) 0 w.sends =
        (none, false, []) := by
      rw [hw, ← hreq]
      exact sendAll_one _ (by simp)
    have hru : recvUntil m [] w.recvs =
        (some PyError.connectionLost, true, chunks.flatten, rest) := by
      rw [hr]
      have h1 := recvUntil_zero m chunks rest [] hne (by simpa using hmid)
      simpa using h1
    constructor <;>
      simp [Connection.send, hs, Connection.sendBody, hest, hcl, hsa,
        Connection.readPhase, hru]

/-- Witness for C4: a zero-byte write and (separately) a zero-byte read
    after a partial reply each yield the connection-lost failure with the
    handle dropped. -/
theorem send_zero_marks_lost_witness :
    ((Connection.send
        ⟨"localhost:1234", some ⟨Transport.tcp "localhost" "1234", true, false⟩⟩
        ⟨[], [SendEv.sent 0], []⟩ "status" Connection.END_MARKER).1 =
      Except.error PyError.connectionLost ∧
      ((Connection.send
        ⟨"localhost:1234", some ⟨Transport.tcp "localhost" "1234", true, false⟩⟩
        ⟨[], [SendEv.sent 0], []⟩ "status" Connection.END_MARKER).2.1).socket =
        none) ∧
    ((Connection.send
        ⟨"localhost:1234", some ⟨Transport.tcp "localhost" "1234", true, false⟩⟩
        ⟨[], [SendEv.sent ((strBytes (pyStrip "status")).length + 1)],
         [RecvEv.chunk [72, 105], RecvEv.chunk []]⟩
        "status" Connection.END_MARKER).1 =
      Except.error PyError.connectionLost ∧
      ((Connection.send
        ⟨"localhost:1234", some ⟨Transport.tcp "localhost" "1234", true, false⟩⟩
        ⟨[], [SendEv.sent ((strBytes (pyStrip "status")).length + 1)],
         [RecvEv.chunk [72, 105], RecvEv.chunk []]⟩
        "status" Connection.END_MARKER).2.1).socket = none) :=
  ⟨send_zero_marks_lost.1
      ⟨"localhost:1234", some ⟨Transport.tcp "localhost" "1234", true, false⟩⟩
      ⟨Transport.tcp "localhost" "1234", true, false⟩
      ⟨[], [SendEv.sent 0], []⟩ "status" Connection.END_MARKER [] []
      rfl rfl rfl rfl (by decide) (by decide),
   send_zero_marks_lost.2
      ⟨"localhost:1234", some ⟨Transport.tcp "localhost" "1234", true, false⟩⟩
      ⟨Transport.tcp "localhost" "1234", true, false⟩
      ⟨[], [SendEv.sent ((strBytes (pyStrip "status")).length + 1)],
       [RecvEv.chunk [72, 105], RecvEv.chunk []]⟩
      "status" Connection.END_MARKER [[72, 105]] []
      rfl rfl rfl rfl rfl (by decide) (by decide)⟩

/-! ### C9: partial writes still deliver the full request first -/

/-- C9: for every request and every transport accepting the write in
    non-zero partial chunks that cover the request, the write loop runs
    until all bytes are sent, consuming exactly those write events and
    only then entering the response phase. -/
theorem send_partial_write_completes (c : Connection) (h : Handle) (w : World)
    (cmd : String) (m : List Nat) (ns : List Nat)
    (hs : c.socket = some h) (hest : h.estab = true) (hcl : h.closed = false)
    (hw : w.sends = ns.map SendEv.sent)
    (hnz : ∀ n ∈ ns, n ≠ 0)
    (hpref : ∀ k, k < ns.length →
        (ns.take k).sum < (strBytes (pyStrip cmd)).length + 1)
    (hsum : (strBytes (pyStrip cmd)).length + 1 ≤ ns.sum) :
    Connection.send c w cmd m =
      Connection.readPhase c h { w with sends := [] } m := by
  have hsa : sendAll (strBytes (pyStrip cmd) ++ [10]) 0 w.sends =
      (none, false, []) := by
    rw [hw, show ns.map SendEv.sent = ns.map SendEv.sent ++ [] by simp]
    apply sendAll_covers _ ns [] 0 hnz
    · intro k hk
      have h1 := hpref k hk
      simpa using h1
    · simpa using hsum
  simp [Connection.send, hs, Connection.sendBody, hest, hcl, hsa]

/-- Witness for C9: the 8-byte request `version\n` accepted in chunks of
    3 and 5 bytes completes the write and proceeds to the read phase. -/
theorem send_partial_write_completes_witness :
    Connection.send
        ⟨"localhost:1234", some ⟨Transport.tcp "localhost" "1234", true, false⟩⟩
        ⟨[], [SendEv.sent 3, SendEv.sent 5],
         [RecvEv.chunk [13, 10, 69, 78, 68, 13, 10]]⟩
        "version" Connection.END_MARKER =
      Connection.readPhase
        ⟨"localhost:1234", some ⟨Transport.tcp "localhost" "1234", true, false⟩⟩
        ⟨Transport.tcp "localhost" "1234", true, false⟩
        ⟨[], [], [RecvEv.chunk [13, 10, 69, 78, 68, 13, 10]]⟩
        Connection.END_MARKER :=
  send_partial_write_completes
    ⟨"localhost:1234", some ⟨Transport.tcp "localhost" "1234", true, false⟩⟩
    ⟨Transport.tcp "localhost" "1234", true, false⟩
    ⟨[], [SendEv.sent 3, SendEv.sent 5],
     [RecvEv.chunk [13, 10, 69, 78, 68, 13, 10]]⟩
    "version" Connection.END_MARKER [3, 5]
    rfl rfl rfl rfl (by decide) (by decide) (by decide)

/-! ### C10: only zero-byte reads/writes mark Disconnected -/

/-- C10: with a socket object present, an error other than the
    connection-lost kind (e.g. a receive timeout) leaves the connection
    object unchanged (first conjunct); the handle is dropped only with
    the connection-lost error (second conjunct); and `send` never opens a
    fresh transport while a handle is present, so a subsequent send
    reuses the same socket (third conjunct). -/
theorem send_exception_keeps_socket :
    (∀ (c : Connection) (h : Handle) (w : World) (cmd : String) (m : List Nat)
        (e : PyError),
      c.socket = some h → (Connection.send c w cmd m).1 = Except.error e →
      e ≠ PyError.connectionLost → (Connection.send c w cmd m).2.1 = c)
    ∧ (∀ (c : Connection) (h : Handle) (w : World) (cmd : String) (m : List Nat),
      c.socket = some h → ((Connection.send c w cmd m).2.1).socket = none →
      (Connection.send c w cmd m).1 = Except.error PyError.connectionLost)
    ∧ (∀ (c : Connection) (h : Handle) (w : World) (cmd : String) (m : List Nat),
      c.socket = some h →
      ((Connection.send c w cmd m).2.2).connects = w.connects) := by
  refine ⟨?_, ?_, ?_⟩
  · intro c h w cmd m e hs herr hne
    rw [send_of_some c h w cmd m hs] at herr ⊢
    rcases sendBody_cases c h w cmd m hs with ⟨h1, h2⟩ | ⟨h1, h2⟩
    · exact h1
    · rw [h2] at herr
      injection herr with he
      exact absurd he.symm hne
  · intro c h w cmd m hs hnone
    rw [send_of_some c h w cmd m hs] at hnone ⊢
    rcases sendBody_cases c h w cmd m hs with ⟨h1, h2⟩ | ⟨h1, h2⟩
    · rw [h1, hs] at hnone
      cases hnone
    · exact h2
  · intro c h w cmd m hs
    rw [send_of_some c h w cmd m hs]
    exact sendBody_connects c h w cmd m

/-- Witness for C10: after a receive timeout the connection object is
    unchanged and no connect event was consumed. -/
theorem send_exception_keeps_socket_witness :
    (Connection.send
        ⟨"localhost:1234", some ⟨Transport.tcp "localhost" "1234", true, false⟩⟩
        ⟨[true], [SendEv.sent 8], [RecvEv.raises SockErr.timeout]⟩
        "version" Connection.END_MARKER).2.1 =
      ⟨"localhost:1234", some ⟨Transport.tcp "localhost" "1234", true, false⟩⟩ ∧
    ((Connection.send
        ⟨"localhost:1234", some ⟨Transport.tcp "localhost" "1234", true, false⟩⟩
        ⟨[true], [SendEv.sent 8], [RecvEv.raises SockErr.timeout]⟩
        "version" Connection.END_MARKER).2.2).connects = [true] :=
  ⟨send_exception_keeps_socket.1
      ⟨"localhost:1234", some ⟨Transport.tcp "localhost" "1234", true, false⟩⟩
      ⟨Transport.tcp "localhost" "1234", true, false⟩
      ⟨[true], [SendEv.sent 8], [RecvEv.raises SockErr.timeout]⟩
      "version" Connection.END_MARKER PyError.sockTimeout
      rfl rfl (by decide),
   send_exception_keeps_socket.2.2
      ⟨"localhost:1234", some ⟨Transport.tcp "localhost" "1234", true, false⟩⟩
      ⟨Transport.tcp "localhost" "1234", true, false⟩
      ⟨[true], [SendEv.sent 8], [RecvEv.raises SockErr.timeout]⟩
      "version" Connection.END_MARKER rfl⟩

/-! ### C2 (amended): a receive timeout propagates out of send -/

/-- C2 amended: a receive timeout during the read loop is not retried by
    `send`: the `socket.timeout` exception propagates to the caller
    immediately (second conjunct computes the exchange), with the socket
    handle left in place (first conjunct); recovery, if any, is the
    caller's retry of the whole exchange. -/
theorem send_timeout_not_retried :
    (∀ (c : Connection) (h : Handle) (w : World) (cmd : String) (m : List Nat),
      c.socket = some h →
      (Connection.send c w cmd m).1 = Except.error PyError.sockTimeout →
      ((Connection.send c w cmd m).2.1).socket = some h)
    ∧ (∀ (c : Connection) (h : Handle) (w : World) (cmd : String) (m : List Nat)
        (rest : List RecvEv),
      c.socket = some h → h.estab = true → h.closed = false → m ≠ [] →
      w.sends = [SendEv.sent ((strBytes (pyStrip cmd)).length + 1)] →
      w.recvs = RecvEv.raises SockErr.timeout :: rest →
      Connection.send c w cmd m =
        (Except.error PyError.sockTimeout, c,
         { w with sends := [], recvs := rest })) := by
  constructor
  · intro c h w cmd m hs herr
    rw [send_of_some c h w cmd m hs] at herr ⊢
    rcases sendBody_cases c h w cmd m hs with ⟨h1, h2⟩ | ⟨h1, h2⟩
    · rw [h1, hs]
    · rw [h2] at herr
      injection herr with he
      cases he
  · intro c h w cmd m rest hs hest hcl hm hw hr
    have hsa : sendAll (strBytes (pyStrip cmd) ++ [10]) 0 w.sends =
        (none, false, []) := by
      rw [hw, show (strBytes (pyStrip cmd)).length + 1 =
        (strBytes (pyStrip cmd) ++ [10]).length by simp]
      exact sendAll_one _ (by simp)
    have hnil : m.isSuffixOf ([] : List Nat) = false := by
      cases m with
      | nil => exact absurd rfl hm
      | cons x xs => simp [List.isSuffixOf_iff_suffix, List.suffix_nil]
    have hru : recvUntil m [] w.recvs =
        (some PyError.sockTimeout, false, [], rest) := by
      rw [hr]
      simp [recvUntil, hnil, SockErr.toPy]
    simp [Connection.send, hs, Connection.sendBody, hest, hcl, hsa,
      Connection.readPhase, hru, Connection.eta c h hs]

/-- Witness for C2: first recv times out, `send` returns the timeout
    error and the unchanged connection. -/
theorem send_timeout_not_retried_witness :
    Connection.send
        ⟨"localhost:1234", some ⟨Transport.tcp "localhost" "1234", true, false⟩⟩
        ⟨[], [SendEv.sent ((strBytes (pyStrip "version")).length + 1)],
         [RecvEv.raises SockErr.timeout]⟩
        "version" Connection.END_MARKER =
      (Except.error PyError.sockTimeout,
       ⟨"localhost:1234", some ⟨Transport.tcp "localhost" "1234", true, false⟩⟩,
       ⟨[], [], []⟩) :=
  send_timeout_not_retried.2
    ⟨"localhost:1234", some ⟨Transport.tcp "localhost" "1234", true, false⟩⟩
    ⟨Transport.tcp "localhost" "1234", true, false⟩
    ⟨[], [SendEv.sent ((strBytes (pyStrip "version")).length + 1)],
     [RecvEv.raises SockErr.timeout]⟩
    "version" Connection.END_MARKER []
    rfl rfl rfl (by decide) rfl rfl

/-! ### C6: the interactive path retries exactly once -/

/-- C6: `Console._send` retries a failed exchange exactly once — on an
    OSError from `send` it re-invokes `send` with the same line, and
    whatever that second call produces (success or failure) is returned
    without further retries (first conjunct); after a connection-lost
    failure the handle was dropped, so the retry reconnects lazily
    (second conjunct); and `send` itself never retries: it consumes at
    most one connect attempt per call (third conjunct). -/
theorem console_retry_once :
    (∀ (c : Connection) (w : World) (line : String) (e : PyError)
        (c1 : Connection) (w1 : World),
      Connection.send c w line Connection.END_MARKER = (Except.error e, c1, w1) →
      isOSError e = true →
      Console.send c w line = Connection.send c1 w1 line Connection.END_MARKER)
    ∧ (∀ (c : Connection) (w : World) (cmd : String) (m : List Nat)
        (c1 : Connection) (w1 : World),
      Connection.send c w cmd m = (Except.error PyError.connectionLost, c1, w1) →
      c1.socket = none)
    ∧ (∀ (c : Connection) (w : World) (cmd : String) (m : List Nat),
      w.connects.length ≤ ((Connection.send c w cmd m).2.2).connects.length + 1) := by
  refine ⟨?_, ?_, ?_⟩
  · intro c w line e c1 w1 heq hos
    simp [Console.send, heq, hos]
  · intro c w cmd m c1 w1 heq
    cases hsock : c.socket with
    | some h =>
      rw [send_of_some c h w cmd m hsock] at heq
      rcases sendBody_cases c h w cmd m hsock with ⟨h1, h2⟩ | ⟨h1, h2⟩
      · exact absurd (by rw [heq]) h2
      · rw [heq] at h1
        simp only [] at h1
        rw [h1]
    | none =>
      cases hcw : w.connects with
      | nil =>
        have hred : Connection.send c w cmd m =
            (Except.error PyError.scriptEnd, c, w) := by
          simp [Connection.send, hsock, Connection.connect, hcw]
        rw [hred] at heq
        simp at heq
      | cons ok rest =>
        cases ok with
        | false =>
          have hred : Connection.send c w cmd m =
              (Except.error PyError.connectFailed,
               { c with socket := some ⟨selectTransport c.socket_addr, false, false⟩ },
               { w with connects := rest }) := by
            simp [Connection.send, hsock, Connection.connect, hcw]
          rw [hred] at heq
          simp at heq
        | true =>
          have hred : Connection.send c w cmd m =
              Connection.sendBody
                { c with socket := some ⟨selectTransport c.socket_addr, true, false⟩ }
                ⟨selectTransport c.socket_addr, true, false⟩
                { w with connects := rest } cmd m := by
            simp [Connection.send, hsock, Connection.connect, hcw]
          rw [hred] at heq
          rcases sendBody_cases
              { c with socket := some ⟨selectTransport c.socket_addr, true, false⟩ }
              ⟨selectTransport c.socket_addr, true, false⟩
              { w with connects := rest } cmd m rfl with ⟨h1, h2⟩ | ⟨h1, h2⟩
          · exact absurd (by rw [heq]) h2
          · rw [heq] at h1
            simp only [] at h1
            rw [h1]
  · intro c w cmd m
    cases hsock : c.socket with
    | some h =>
      rw [send_of_some c h w cmd m hsock, sendBody_connects]
      omega
    | none =>
      cases hcw : w.connects with
      | nil =>
        have hred : Connection.send c w cmd m =
            (Except.error PyError.scriptEnd, c, w) := by
          simp [Connection.send, hsock, Connection.connect, hcw]
        rw [hred]
        simp [hcw]
      | cons ok rest =>
        cases ok with
        | false =>
          have hred : Connection.send c w cmd m =
              (Except.error PyError.connectFailed,
               { c with socket := some ⟨selectTransport c.socket_addr, false, false⟩ },
               { w with connects := rest }) := by
            simp [Connection.send, hsock, Connection.connect, hcw]
          rw [hred]
          simp
        | true =>
          have hred : Connection.send c w cmd m =
              Connection.sendBody
                { c with socket := some ⟨selectTransport c.socket_addr, true, false⟩ }
                ⟨selectTransport c.socket_addr, true, false⟩
                { w with connects := rest } cmd m := by
            simp [Connection.send, hsock, Connection.connect, hcw]
          rw [hred, sendBody_connects]
          simp

/-- Witness for C6: a zero-byte write loses the first exchange; the
    interactive path re-invokes `send` on the dropped-handle state (which
    then reconnects), and the connection returned by the failed `send`
    indeed has no socket. -/
theorem console_retry_once_witness :
    Console.send
        ⟨"localhost:1234", some ⟨Transport.tcp "localhost" "1234", true, false⟩⟩
        ⟨[true], [SendEv.sent 0, SendEv.sent 7],
         [RecvEv.chunk [79, 75, 13, 10, 69, 78, 68, 13, 10]]⟩ "status" =
      Connection.send ⟨"localhost:1234", none⟩
        ⟨[true], [SendEv.sent 7],
         [RecvEv.chunk [79, 75, 13, 10, 69, 78, 68, 13, 10]]⟩
        "status" Connection.END_MARKER ∧
    (⟨"localhost:1234", none⟩ : Connection).socket = none :=
  ⟨console_retry_once.1
      ⟨"localhost:1234", some ⟨Transport.tcp "localhost" "1234", true, false⟩⟩
      ⟨[true], [SendEv.sent 0, SendEv.sent 7],
       [RecvEv.chunk [79, 75, 13, 10, 69, 78, 68, 13, 10]]⟩
      "status" PyError.connectionLost ⟨"localhost:1234", none⟩
      ⟨[true], [SendEv.sent 7],
       [RecvEv.chunk [79, 75, 13, 10, 69, 78, 68, 13, 10]]⟩
      rfl rfl,
   console_retry_once.2.1
      ⟨"localhost:1234", some ⟨Transport.tcp "localhost" "1234", true, false⟩⟩
      ⟨[true], [SendEv.sent 0, SendEv.sent 7],
       [RecvEv.chunk [79, 75, 13, 10, 69, 78, 68, 13, 10]]⟩
      "status" Connection.END_MARKER ⟨"localhost:1234", none⟩
      ⟨[true], [SendEv.sent 7],
       [RecvEv.chunk [79, 75, 13, 10, 69, 78, 68, 13, 10]]⟩
      rfl⟩
